import Mathlib

/-!
# Verification of the finance_tracker analytics pipeline

Shallow embedding of the analytics core of the `finance_tracker` repository
(`finance_core.py`, `modules/ai_engine.py`, `modules/data_manager.py`) and
proofs about the claims of its specification.

Conventions of the embedding:
* monetary amounts and all derived statistics are rational numbers (`ℚ`);
  the source computes with IEEE floats, whose rounding is immaterial to the
  claims checked here, and the display-only `round(x, k)` calls of the
  source are omitted;
* a pandas `DataFrame` of transactions is a `List` of records;
* date strings parsed by `pandas.to_datetime` are represented as already
  parsed `Date` structures; `dt.to_period('M')` is the `(year, month)` pair;
* pandas `groupby` sorts its keys, modelled by an insertion sort over the
  deduplicated keys.
-/

namespace FinanceTracker

/-- A calendar date at day granularity (the source stores date strings and
parses them with pandas). -/
structure Date where
  year : Int
  month : Nat
  day : Nat
deriving DecidableEq, Repr

/-- `dt.to_period('M')`: the month bucket key of a date. -/
def Date.period (d : Date) : Int × Nat := (d.year, d.month)

/-- Chronological order on month keys, as a Bool (lexicographic on
year then month), used to model pandas' sorted `groupby` keys. -/
def periodLe (p q : Int × Nat) : Bool :=
  p.1 < q.1 || (p.1 == q.1 && p.2 ≤ q.2)

/-- Lexicographic order on character lists (by code point). -/
def charListLe : List Char → List Char → Bool
  | [], _ => true
  | _ :: _, [] => false
  | a :: as, b :: bs =>
    if a.toNat < b.toNat then true
    else if b.toNat < a.toNat then false
    else charListLe as bs

/-- Lexicographic order on strings, used to model pandas' sorted string
`groupby` keys. -/
def strLe (a b : String) : Bool :=
  charListLe a.data b.data

/-- Transaction record in the shape used by `modules/data_manager.py` and
consumed by `modules/ai_engine.py` (`type` is spelled `ttype` because `type`
is reserved in Lean). -/
structure Txn where
  id : String
  date : Date
  amount : ℚ
  category : String
  ttype : String
  description : String
  tags : List String
  status : String
  created_at : String
  updated_at : String
deriving DecidableEq, Repr

/-- Transaction record as declared in `finance_core.py` (`@dataclass
Transaction`, field `subcategory` instead of `type`). -/
structure FCTxn where
  date : Date
  amount : ℚ
  category : String
  subcategory : String
  description : String
  id : String
deriving DecidableEq, Repr

/-- `df[df['category'] == 'Income']`. -/
def incomes (ts : List Txn) : List Txn :=
  ts.filter (fun t => t.category == "Income")

/-- `df[df['category'] == 'Expense']`. -/
def expenses (ts : List Txn) : List Txn :=
  ts.filter (fun t => t.category == "Expense")

/-- `df['amount'].sum()`. -/
def sumAmounts (ts : List Txn) : ℚ :=
  (ts.map (fun t => t.amount)).sum

/-- The sorted, deduplicated month keys of a transaction list: the index of
`df.groupby('month')`. -/
def sortedPeriods (ts : List Txn) : List (Int × Nat) :=
  List.insertionSort (fun p q => periodLe p q = true) ((ts.map (fun t => t.date.period)).dedup)

/-- The transactions of `ts` falling in month bucket `p`. -/
def inPeriod (ts : List Txn) (p : Int × Nat) : List Txn :=
  ts.filter (fun t => t.date.period == p)

/-- `df.groupby('month')['amount'].sum()` as a chronologically ordered list
of monthly sums. -/
def monthlySums (ts : List Txn) : List ℚ :=
  (sortedPeriods ts).map (fun p => sumAmounts (inPeriod ts p))

/-- Result shape of `calculate_monthly_trend` (the fields `current_month`
and `average_monthly` of the source's dict are carried too). -/
structure TrendResult where
  trend : String
  change_percent : ℚ
  current_month : ℚ
  average_monthly : ℚ
deriving DecidableEq, Repr

/-- The trend computation of `calculate_monthly_trend` on an already
bucketed monthly expense series (the body after the `groupby`); the
source's display-only `round(change_percent, 1)` is omitted. -/
def trendOfMonthly (monthly : List ℚ) : TrendResult :=
  if monthly.length < 2 then
    { trend := "stable", change_percent := 0, current_month := 0, average_monthly := 0 }
  else
    let current := monthly.getD (monthly.length - 1) 0
    let previous := monthly.getD (monthly.length - 2) 0
    let change_percent := if previous ≠ 0 then (current - previous) / previous * 100 else 0
    let trend :=
      if change_percent > 5 then "increasing"
      else if change_percent < -5 then "decreasing"
      else "stable"
    { trend := trend, change_percent := change_percent, current_month := current,
      average_monthly := monthly.sum / monthly.length }

/-- `AIFinancialEngine.calculate_monthly_trend` (ai_engine.py lines 66-85):
bucket the Expense subset by month, then classify the month-over-month
change. When fewer than 2 buckets exist the source returns the dict
`{'trend': 'stable', 'change_percent': 0}`, modelled with the remaining
fields zero. -/
def calculate_monthly_trend (ts : List Txn) : TrendResult :=
  trendOfMonthly (monthlySums (expenses ts))

/-- One entry of the result of `forecast_spending`. The source labels each
entry with a month string derived from the wall clock
(`datetime.now() + timedelta(days=30*(i+1))`); the embedding keeps the
forecast offset `i` instead of the formatted label. -/
structure ForecastEntry where
  offset : Nat
  predicted_amount : ℚ
  confidence : ℚ
deriving DecidableEq, Repr

/-- `AIFinancialEngine.forecast_spending` (ai_engine.py lines 102-125):
moving-average forecast from the last 3 monthly expense sums; returns `[]`
when fewer than 3 expense transactions exist. -/
def forecast_spending (ts : List Txn) (months : Nat := 3) : List ForecastEntry :=
  if (expenses ts).length < 3 then []
  else
    let expense_df := expenses ts
    let monthly_expenses := monthlySums expense_df
    let last_values := monthly_expenses.drop (monthly_expenses.length - 3)
    let avg_spending := last_values.sum / last_values.length
    (List.range months).map (fun i =>
      { offset := i
        predicted_amount := avg_spending * (1 + 2/100 * i)
        confidence := max (7/10 - i * (1/10)) (3/10) })

/-- One anomaly reported by `detect_anomalies`: the offending transaction
and its high/low tag. The source also reports the (rounded) z-score and
echoes date/amount/description of the row; the transaction itself carries
those fields. -/
structure Anomaly where
  txn : Txn
  tag : String
deriving DecidableEq, Repr

/-- Mean of the amounts of a transaction list (`Series.mean`). -/
def meanAmount (ts : List Txn) : ℚ :=
  sumAmounts ts / ts.length

/-- Sample variance of the amounts (`Series.std()` squared: pandas `std`
uses `ddof=1`, dividing by `n - 1`). For a single element pandas yields
`NaN`; the embedding's `ℚ` division by zero yields `0`, and in both cases
`detect_anomalies` reports no anomaly. -/
def sampleVarAmount (ts : List Txn) : ℚ :=
  ((ts.map (fun t => (t.amount - meanAmount ts) ^ 2)).sum) / (ts.length - 1 : ℚ)

/-- `AIFinancialEngine.detect_anomalies` (ai_engine.py lines 127-154).
The source flags a row when `abs((amount - mean) / std) > 2` with
`std = amounts.std()` (the sample standard deviation); since `std > 0`
past the zero guard, that comparison is encoded without square roots as
`(amount - mean)^2 > 4 * variance`, which is equivalent. -/
def detect_anomalies (ts : List Txn) : List Anomaly :=
  if (expenses ts).isEmpty then []
  else if sampleVarAmount (expenses ts) = 0 then []
  else
    let expense_df := expenses ts
    let mean_amount := meanAmount expense_df
    let var_amount := sampleVarAmount expense_df
    (expense_df.filter (fun t => (t.amount - mean_amount) ^ 2 > 4 * var_amount)).map
      (fun t =>
        { txn := t
          tag := if t.amount > mean_amount then "high_spending" else "low_spending" })

/-- Follows the spec's words (§4.4): anomaly detection with the
*population* mean and standard deviation (variance `Σ(x-μ)²/n`), flagging
absolute z-scores above 2, with the same zero-deviation guard. Written
only to be compared with `detect_anomalies`, which the source computes
with the sample standard deviation. -/
def popVarAmount (ts : List Txn) : ℚ :=
  ((ts.map (fun t => (t.amount - meanAmount ts) ^ 2)).sum) / (ts.length : ℚ)

/-- Follows the spec's words (§4.4): the anomaly list computed with the
population standard deviation, `z > 2` encoded as
`(amount - mean)^2 > 4 * popVar`. -/
def detect_anomalies_specPopulation (ts : List Txn) : List Anomaly :=
  if (expenses ts).isEmpty then []
  else if popVarAmount (expenses ts) = 0 then []
  else
    let expense_df := expenses ts
    let mean_amount := meanAmount expense_df
    let var_amount := popVarAmount expense_df
    (expense_df.filter (fun t => (t.amount - mean_amount) ^ 2 > 4 * var_amount)).map
      (fun t =>
        { txn := t
          tag := if t.amount > mean_amount then "high_spending" else "low_spending" })

/-- `AIFinancialEngine.calculate_diversity_score` (ai_engine.py lines
273-276): `min(nunique income types * 20, 100)`. -/
def calculate_diversity_score (ts : List Txn) : ℚ :=
  let income_sources := (((incomes ts).map (fun t => t.ttype)).dedup).length
  min (income_sources * 20 : ℚ) 100

/-- `AIFinancialEngine.calculate_growth_score` (ai_engine.py lines
278-285): growth of monthly income from the first to the last bucket,
rescaled and clamped to [0,100]; `50` with fewer than 2 income buckets. -/
def calculate_growth_score (ts : List Txn) : ℚ :=
  if (monthlySums (incomes ts)).length < 2 then 50
  else
    let monthly_income := monthlySums (incomes ts)
    let first := monthly_income.getD 0 0
    let last := monthly_income.getD (monthly_income.length - 1) 0
    let growth_rate := (last - first) / first * 100
    min (max (growth_rate * 5 + 50) 0) 100

/-- The `savings_score` line of `calculate_financial_health_score`
(ai_engine.py line 243): `min(savings_rate * 2, 100)`. -/
def savings_score_of (savings_rate : ℚ) : ℚ :=
  min (savings_rate * 2) 100

/-- The `stability_score` line of `calculate_financial_health_score`
(ai_engine.py line 244): `80 if len(df) > 10 else 40`. -/
def stability_score_of (ts : List Txn) : ℚ :=
  if ts.length > 10 then 80 else 40

/-- `AIFinancialEngine.generate_health_recommendations` (ai_engine.py
lines 287-303), taking the breakdown's fields it reads. -/
def generate_health_recommendations (savings_rate expense_ratio diversity_score savings_score : ℚ) :
    List String :=
  (if savings_rate < 20 then ["Increase savings rate to at least 20% of income"] else []) ++
  (if expense_ratio > 80 then ["Reduce expenses to below 80% of income"] else []) ++
  (if diversity_score < 60 then ["Diversify income sources for better stability"] else []) ++
  (if savings_score < 70 then ["Focus on building emergency fund"] else [])

/-- Result of `calculate_financial_health_score`: the overall score, the
breakdown mapping (in the source's insertion order) and the
recommendation strings. -/
structure HealthResult where
  score : ℚ
  breakdown : List (String × ℚ)
  recommendations : List String
deriving DecidableEq, Repr

/-- `AIFinancialEngine.calculate_financial_health_score` (ai_engine.py
lines 225-271). The display-only `round(_, 1)` calls of the source are
omitted. -/
def calculate_financial_health_score (ts : List Txn) : HealthResult :=
  if ts.isEmpty then { score := 0, breakdown := [], recommendations := [] }
  else if sumAmounts (incomes ts) = 0 then { score := 0, breakdown := [], recommendations := [] }
  else
      let total_income := sumAmounts (incomes ts)
      let total_expenses := sumAmounts (expenses ts)
      let savings_rate := (total_income - total_expenses) / total_income * 100
      let expense_ratio := total_expenses / total_income * 100
      let savings_score := savings_score_of savings_rate
      let stability_score := stability_score_of ts
      let diversity_score := calculate_diversity_score ts
      let growth_score := calculate_growth_score ts
      let overall_score :=
        savings_score * (4/10) + stability_score * (3/10) +
        diversity_score * (2/10) + growth_score * (1/10)
      { score := overall_score
        breakdown :=
          [("savings_rate", savings_rate), ("expense_ratio", expense_ratio),
           ("savings_score", savings_score), ("stability_score", stability_score),
           ("diversity_score", diversity_score), ("growth_score", growth_score)]
        recommendations :=
          generate_health_recommendations savings_rate expense_ratio diversity_score savings_score }

/-- `df[df['Category'] == 'Income']` over finance_core records. -/
def fcIncomes (ts : List FCTxn) : List FCTxn :=
  ts.filter (fun t => t.category == "Income")

/-- `df[df['Category'] == 'Expense']` over finance_core records. -/
def fcExpenses (ts : List FCTxn) : List FCTxn :=
  ts.filter (fun t => t.category == "Expense")

/-- `df['Amount'].sum()` over finance_core records. -/
def fcSumAmounts (ts : List FCTxn) : ℚ :=
  (ts.map (fun t => t.amount)).sum

/-- Sorted, deduplicated month keys (`df.groupby('Month')` index). -/
def fcSortedPeriods (ts : List FCTxn) : List (Int × Nat) :=
  List.insertionSort (fun p q => periodLe p q = true) ((ts.map (fun t => t.date.period)).dedup)

/-- The finance_core transactions falling in month bucket `p`. -/
def fcInPeriod (ts : List FCTxn) (p : Int × Nat) : List FCTxn :=
  ts.filter (fun t => t.date.period == p)

/-- A cell of a pandas object-dtype column: either a number or a string
(the mis-aggregated monthly column of `get_financial_summary` holds
both). -/
inductive PdVal where
  | num (q : ℚ)
  | str (s : String)
deriving DecidableEq, Repr

/-- `Series.mean()` over an object-dtype column: an all-numeric column
averages normally; any string cell makes pandas raise a `TypeError`
("Could not convert ... to numeric"), modelled as `Except.error`. -/
def pdMean (col : List PdVal) : Except String ℚ :=
  if col.all (fun v => match v with | .num _ => true | .str _ => false) then
    .ok ((col.map (fun v => match v with | .num q => q | .str _ => 0)).sum / col.length)
  else
    .error "TypeError: Could not convert string to numeric"

/-- The per-month `'Income'` column of `FinanceManager.get_financial_summary`'s
`monthly_data` (finance_core.py lines 77-80): for each month bucket, the sum
of the `Amount` values of that month's Income rows. -/
def fcMonthlyIncomeCol (ts : List FCTxn) : List ℚ :=
  (fcSortedPeriods ts).map (fun p => fcSumAmounts (fcIncomes (fcInPeriod ts p)))

/-- The month-`p` cell of the `'Expense'` column of `monthly_data`
(finance_core.py line 79): the source's `agg` dict hands the **`Category`**
column (not `Amount`) to the expense lambda, so the cell is the pandas
`sum` of the month's Expense rows' category *strings*: the integer `0`
when the month has no Expense row (empty-sum), and the concatenation of
the literal strings `"Expense"` otherwise. -/
def fcExpenseCell (ts : List FCTxn) (p : Int × Nat) : PdVal :=
  let grp := fcExpenses (fcInPeriod ts p)
  if grp.isEmpty then .num 0 else .str (String.join (grp.map (fun t => t.category)))

/-- The full per-month `'Expense'` column of `monthly_data`. -/
def fcMonthlyExpenseCol (ts : List FCTxn) : List PdVal :=
  (fcSortedPeriods ts).map (fcExpenseCell ts)

/-- Per-subcategory breakdown: `rows.groupby(key)[amount].sum().to_dict()`,
keys in pandas' sorted order. -/
def breakdownBy {α : Type} (key : α → String) (val : α → ℚ) (rows : List α) :
    List (String × ℚ) :=
  (List.insertionSort (fun a b => strLe a b = true) ((rows.map key).dedup)).map
    (fun k => (k, ((rows.filter (fun x => key x == k)).map val).sum))

/-- Result shape of `FinanceManager.get_financial_summary`. The
`current_month_expense` field is a `PdVal` because the source's
mis-aggregated monthly column stores strings there. -/
structure FCSummary where
  total_income : ℚ
  total_expenses : ℚ
  net_balance : ℚ
  current_month_income : ℚ
  current_month_expense : PdVal
  savings_rate : ℚ
  expense_ratio : ℚ
  expense_breakdown : List (String × ℚ)
  income_breakdown : List (String × ℚ)
  transaction_count : Nat
  avg_monthly_income : ℚ
  avg_monthly_expense : ℚ
deriving DecidableEq, Repr

/-- `FinanceManager._get_empty_summary` (finance_core.py lines 174-189). -/
def fcEmptySummary : FCSummary :=
  { total_income := 0, total_expenses := 0, net_balance := 0,
    current_month_income := 0, current_month_expense := .num 0,
    savings_rate := 0, expense_ratio := 0,
    expense_breakdown := [], income_breakdown := [],
    transaction_count := 0, avg_monthly_income := 0, avg_monthly_expense := 0 }

/-- `FinanceManager.get_financial_summary` (finance_core.py lines 63-105).
`now` stands for `pd.Timestamp.now()`. The summary dict is returned only
after every entry is evaluated, and `monthly_data['Expense'].mean()`
(line 104) raises a `TypeError` whenever that object-dtype column holds a
string, i.e. whenever some month has an Expense row, so the whole call is
modelled as `Except`; the function being pure, the embedding checks that
raising column first and otherwise builds the same record. -/
def fc_get_financial_summary (ts : List FCTxn) (now : Date) : Except String FCSummary :=
  if ts.isEmpty then .ok fcEmptySummary
  else
    match pdMean (fcMonthlyExpenseCol ts) with
    | .error e => .error e
    | .ok avg_monthly_expense =>
        let total_income := fcSumAmounts (fcIncomes ts)
        let total_expenses := fcSumAmounts (fcExpenses ts)
        let net_balance := total_income - total_expenses
        let pds := fcSortedPeriods ts
        let current_month_income :=
          if now.period ∈ pds then fcSumAmounts (fcIncomes (fcInPeriod ts now.period)) else 0
        let current_month_expense :=
          if now.period ∈ pds then fcExpenseCell ts now.period else .num 0
        .ok { total_income := total_income
              total_expenses := total_expenses
              net_balance := net_balance
              current_month_income := current_month_income
              current_month_expense := current_month_expense
              savings_rate := if total_income > 0 then net_balance / total_income * 100 else 0
              expense_ratio := if total_income > 0 then total_expenses / total_income * 100 else 0
              expense_breakdown :=
                breakdownBy (fun t : FCTxn => t.subcategory) (fun t => t.amount) (fcExpenses ts)
              income_breakdown :=
                breakdownBy (fun t : FCTxn => t.subcategory) (fun t => t.amount) (fcIncomes ts)
              transaction_count := ts.length
              avg_monthly_income :=
                (fcMonthlyIncomeCol ts).sum / (fcMonthlyIncomeCol ts).length
              avg_monthly_expense := avg_monthly_expense }

/-- `FinanceManager.add_transaction` (finance_core.py lines 34-37): appends
the given record to the stored collection unconditionally (the JSON save is
a persistence side effect outside the embedding). -/
def fc_add_transaction (ts : List FCTxn) (t : FCTxn) : List FCTxn :=
  ts ++ [t]

/-- One entry of `AIPredictor.predict_future_balance`'s prediction list.
The source also carries `confidence_low/high = max(0, pred ∓ 1.96·σ)`
with `σ` the residual standard deviation; the square root does not exist
in `ℚ`, so the squared margin is kept at the result level instead
(`margin_error_sq` below). -/
structure BalancePrediction where
  month : Nat
  predicted_balance : ℚ
deriving DecidableEq, Repr

/-- Result shape of `AIPredictor.predict_future_balance`. -/
structure PredictResult where
  predictions : List BalancePrediction
  margin_error_sq : ℚ
  r_squared : ℚ
  current_trend : String
deriving DecidableEq, Repr

/-- The monthly balance series of `predict_future_balance`: per sorted
month bucket, income sum minus expense sum (finance_core.py lines
203-208; here both lambdas correctly aggregate the `Amount` column). -/
def fcMonthlyBalances (ts : List FCTxn) : List ℚ :=
  (fcSortedPeriods ts).map (fun p =>
    fcSumAmounts (fcIncomes (fcInPeriod ts p)) - fcSumAmounts (fcExpenses (fcInPeriod ts p)))

/-- Mean of a list of rationals (`np.mean` / `Series.mean`). -/
def listMean (l : List ℚ) : ℚ := l.sum / l.length

/-- `AIPredictor.predict_future_balance` (finance_core.py lines 196-244):
ordinary least squares of monthly balance against the 0-based month
index, then `months` extrapolated points clamped at zero. Returns `none`
(the source's empty dict) when the data has fewer than 3 rows or fewer
than 2 month buckets. `sklearn.LinearRegression` computes the standard
closed-form slope/intercept; `np.std` of the residuals is population
standard deviation of the residuals about their mean, kept squared. -/
def predict_future_balance (ts : List FCTxn) (months : Nat := 6) : Option PredictResult :=
  if ts.isEmpty || ts.length < 3 then none
  else if (fcMonthlyBalances ts).length < 2 then none
  else
      let y := fcMonthlyBalances ts
      let n := y.length
      let xs : List ℚ := (List.range n).map (fun i => (i : ℚ))
      let xbar := listMean xs
      let ybar := listMean y
      let sxy := ((xs.zip y).map (fun p => (p.1 - xbar) * (p.2 - ybar))).sum
      let sxx := (xs.map (fun x => (x - xbar) ^ 2)).sum
      let slope := sxy / sxx
      let intercept := ybar - slope * xbar
      let fit := fun (x : ℚ) => intercept + slope * x
      let residuals := (xs.zip y).map (fun p => p.2 - fit p.1)
      let rbar := listMean residuals
      let residual_var := listMean (residuals.map (fun r => (r - rbar) ^ 2))
      let future := (List.range months).map (fun i => (n + i, fit ((n + i : Nat) : ℚ)))
      let ssRes := (residuals.map (fun r => r ^ 2)).sum
      let ssTot := (y.map (fun v => (v - ybar) ^ 2)).sum
      some
        { predictions := future.map (fun p => { month := p.1, predicted_balance := max 0 p.2 })
          margin_error_sq := (196 / 100) ^ 2 * residual_var
          r_squared := 1 - ssRes / ssTot
          current_trend :=
            if (future.getD (future.length - 1) (0, 0)).2 > (future.getD 0 (0, 0)).2
            then "increasing" else "decreasing" }

/-- Canonical rendering of a `Date`, standing for the date string the
source stores and interpolates into f-strings (`f"{self.date}_..."`). -/
def Date.render (d : Date) : String :=
  toString d.year ++ "-" ++ toString d.month ++ "-" ++ toString d.day

/-- Models CPython's salted string hash `hash(str)`. Since Python 3.3 a
string's hash is SipHash keyed by a per-process random secret
(`PYTHONHASHSEED`), so its value depends on the process seed as well as
the string and differs from run to run. Only that dependence matters to
the identifier claims, so a seed-dependent polynomial hash stands in for
SipHash here. -/
def pyHash (seed : Nat) (s : String) : Nat :=
  s.data.foldl (fun h c => (h * 1000003 + c.toNat) % 2 ^ 61) (seed % 2 ^ 61 + 7)

/-- `Transaction.__post_init__` (finance_core.py lines 24-26): when no id
is supplied, synthesize `f"{date}_{amount}_{hash(description)}"`; the
result therefore depends on the per-process hash seed through `pyHash`. -/
def fcPostInitId (seed : Nat) (date : Date) (amount : ℚ) (description : String) :
    Option String → String
  | some i => i
  | none => Date.render date ++ "_" ++ toString amount ++ "_" ++ toString (pyHash seed description)

/-- Construction of a finance_core `Transaction` (dataclass constructor
followed by `__post_init__`): the id, when absent, is synthesized from
date, amount and description only. -/
def fc_mk_transaction (seed : Nat) (date : Date) (amount : ℚ)
    (category subcategory description : String) (oid : Option String) : FCTxn :=
  { date := date, amount := amount, category := category, subcategory := subcategory,
    description := description, id := fcPostInitId seed date amount description oid }

/-- One hexadecimal digit. -/
def hexDigit (n : Nat) : Char :=
  if n < 10 then Char.ofNat (48 + n) else Char.ofNat (87 + n % 16)

/-- `n` rendered as `digits` hex characters, most significant first. -/
def toHex (n : Nat) (digits : Nat) : String :=
  String.mk (((List.range digits).map (fun i => hexDigit (n / 16 ^ i % 16))).reverse)

/-- Models `hashlib.md5(data.encode()).hexdigest()[:12]` used by
`QuantumDataManager.generate_id` (data_manager.py lines 40-42). The md5
digest is Python standard-library code outside this repository; the
identifier claims use only that it is a pure deterministic function of
the input string, so a simple polynomial digest rendered as 12 hex
characters stands in for the md5 internals. -/
def md5hex12 (s : String) : String :=
  toHex (s.data.foldl (fun h c => (h * 16777619 + c.toNat) % 2 ^ 48) 5381) 12

/-- `QuantumDataManager.generate_id` (data_manager.py lines 40-42). -/
def generate_id (data : String) : String :=
  md5hex12 data

/-- Input record for `QuantumDataManager.add_transaction`: the
`transaction_data` dict, whose `id`, `status`, `created_at` and
`updated_at` keys may be absent (`Transaction` defaults then apply). -/
structure TxnInput where
  id : Option String
  date : Date
  amount : ℚ
  category : String
  ttype : String
  description : String
  tags : List String
  status : Option String
  created_at : Option String
  updated_at : Option String
deriving DecidableEq, Repr

/-- `QuantumDataManager.add_transaction` (data_manager.py lines 189-200):
a missing id is synthesized as
`generate_id(f"{date}_{amount}_{description}")`; the record is appended
and the id returned. `now` stands for `datetime.now().isoformat()` used
by `Transaction.__post_init__` for missing timestamps (`updated_at`
defaults to `created_at`). -/
def qdm_add_transaction (ts : List Txn) (r : TxnInput) (now : String) : String × List Txn :=
  let tid :=
    match r.id with
    | some i => i
    | none => generate_id (Date.render r.date ++ "_" ++ toString r.amount ++ "_" ++ r.description)
  let created := r.created_at.getD now
  let t : Txn :=
    { id := tid, date := r.date, amount := r.amount, category := r.category,
      ttype := r.ttype, description := r.description, tags := r.tags,
      status := r.status.getD "completed",
      created_at := created, updated_at := r.updated_at.getD created }
  (tid, ts ++ [t])

/-- The `updates` dict of `QuantumDataManager.update_transaction`: any
subset of the transaction's fields may be overridden. -/
structure TxnUpdates where
  id : Option String := none
  date : Option Date := none
  amount : Option ℚ := none
  category : Option String := none
  ttype : Option String := none
  description : Option String := none
  tags : Option (List String) := none
  status : Option String := none
  created_at : Option String := none
  updated_at : Option String := none
deriving DecidableEq, Repr

/-- `{**asdict(txn), **updates}` followed by
`updated_data['updated_at'] = datetime.now().isoformat()`. -/
def applyUpdates (t : Txn) (u : TxnUpdates) (now : String) : Txn :=
  { id := u.id.getD t.id, date := u.date.getD t.date, amount := u.amount.getD t.amount,
    category := u.category.getD t.category, ttype := u.ttype.getD t.ttype,
    description := u.description.getD t.description, tags := u.tags.getD t.tags,
    status := u.status.getD t.status, created_at := u.created_at.getD t.created_at,
    updated_at := now }

/-- `QuantumDataManager.update_transaction` (data_manager.py lines
202-211): replace the first transaction whose id matches and return
`True`; return `False` leaving the list unchanged when no id matches. -/
def update_transaction (ts : List Txn) (tid : String) (u : TxnUpdates) (now : String) :
    Bool × List Txn :=
  match ts with
  | [] => (false, [])
  | t :: rest =>
    if t.id == tid then (true, applyUpdates t u now :: rest)
    else
      let r := update_transaction rest tid u now
      (r.1, t :: r.2)

/-- `QuantumDataManager.delete_transaction` (data_manager.py lines
213-221): drop every transaction with the given id; report `True` iff
the collection shrank. -/
def delete_transaction (ts : List Txn) (tid : String) : Bool × List Txn :=
  let remaining := ts.filter (fun t => t.id != tid)
  (decide (remaining.length < ts.length), remaining)

/-- Result shape of `QuantumDataManager.get_financial_summary`
(data_manager.py lines 249-293); the `last_updated` wall-clock string is
omitted. -/
structure QSummary where
  total_income : ℚ
  total_expenses : ℚ
  net_worth : ℚ
  current_month_income : ℚ
  current_month_expenses : ℚ
  savings_rate : ℚ
  expense_breakdown : List (String × ℚ)
  income_breakdown : List (String × ℚ)
  transaction_count : Nat
  portfolio_value : ℚ
deriving DecidableEq, Repr

/-- `QuantumDataManager.get_empty_summary` (data_manager.py lines
295-309). -/
def qdmEmptySummary : QSummary :=
  { total_income := 0, total_expenses := 0, net_worth := 0,
    current_month_income := 0, current_month_expenses := 0, savings_rate := 0,
    expense_breakdown := [], income_breakdown := [],
    transaction_count := 0, portfolio_value := 0 }

/-- `QuantumDataManager.get_financial_summary` (data_manager.py lines
249-293). `portfolio_value` stands for `self.portfolio.get('total_value', 0)`
and `now` for `datetime.now()`; the month comparison
`date.strftime('%Y-%m') == current_month` is period equality. -/
def qdm_get_financial_summary (ts : List Txn) (portfolio_value : ℚ) (now : Date) : QSummary :=
  if ts.isEmpty then qdmEmptySummary
  else
    let total_income := sumAmounts (incomes ts)
    let total_expenses := sumAmounts (expenses ts)
    let monthly_income := sumAmounts (incomes (inPeriod ts now.period))
    let monthly_expenses := sumAmounts (expenses (inPeriod ts now.period))
    { total_income := total_income
      total_expenses := total_expenses
      net_worth := total_income - total_expenses + portfolio_value
      current_month_income := monthly_income
      current_month_expenses := monthly_expenses
      savings_rate :=
        if monthly_income > 0 then (monthly_income - monthly_expenses) / monthly_income * 100 else 0
      expense_breakdown := breakdownBy (fun t : Txn => t.ttype) (fun t => t.amount) (expenses ts)
      income_breakdown := breakdownBy (fun t : Txn => t.ttype) (fun t => t.amount) (incomes ts)
      transaction_count := ts.length
      portfolio_value := portfolio_value }

/-- Round half to even (Python's `round`), to the nearest integer. -/
def roundHalfEven (x : ℚ) : Int :=
  let f := ⌊x⌋
  let r := x - f
  if r < 1/2 then f
  else if r > 1/2 then f + 1
  else if f % 2 = 0 then f else f + 1

/-- `round(amount, 2)` with banker's rounding (the source rounds an IEEE
float; the embedding rounds the exact rational). -/
def round2 (x : ℚ) : ℚ :=
  (roundHalfEven (x * 100) : ℚ) / 100

/-- One acceptance step of `DataValidator.get_amount` (data_entry.py
lines 27-43) on an already parsed number (currency-symbol stripping and
float parsing are the input layer): a non-positive value is rejected
(the source re-prompts; modelled as `none`), a positive one is accepted
rounded to 2 decimals. -/
def get_amount_step (amount : ℚ) : Option ℚ :=
  if amount ≤ 0 then none else some (round2 amount)

/-! ## Helper lemmas -/

lemma sum_map_ite_of_not_mem {keys : List String} {a : String} (h : a ∉ keys) (v : ℚ) :
    (keys.map (fun k => if a = k then v else 0)).sum = 0 := by
  induction keys with
  | nil => simp
  | cons k ks ih =>
    simp only [List.map_cons, List.sum_cons]
    have hak : a ≠ k := fun e => h (e ▸ List.mem_cons_self k ks)
    rw [if_neg hak, ih (fun hm => h (List.mem_cons_of_mem k hm)), add_zero]

lemma sum_map_ite_of_mem {keys : List String} (hnd : keys.Nodup) {a : String}
    (ha : a ∈ keys) (v : ℚ) :
    (keys.map (fun k => if a = k then v else 0)).sum = v := by
  induction keys with
  | nil => cases ha
  | cons k ks ih =>
    simp only [List.map_cons, List.sum_cons]
    rcases List.mem_cons.mp ha with h | h
    · rw [if_pos h, sum_map_ite_of_not_mem (h ▸ (List.nodup_cons.mp hnd).1) v, add_zero]
    · have hak : a ≠ k := fun e => (List.nodup_cons.mp hnd).1 (e ▸ h)
      rw [if_neg hak, ih (List.nodup_cons.mp hnd).2 h, zero_add]

lemma sum_map_add {α : Type} (l : List α) (f g : α → ℚ) :
    (l.map (fun a => f a + g a)).sum = (l.map f).sum + (l.map g).sum := by
  induction l with
  | nil => simp
  | cons a l ih => simp only [List.map_cons, List.sum_cons, ih]; ring

/-- Summing fiberwise sums over a duplicate-free covering key list gives
the total sum. -/
lemma sum_fiber_sums {α : Type} (key : α → String) (val : α → ℚ) (keys : List String)
    (hnd : keys.Nodup) (rows : List α) (hcov : ∀ x ∈ rows, key x ∈ keys) :
    (keys.map (fun k => ((rows.filter (fun x => key x == k)).map val).sum)).sum
      = (rows.map val).sum := by
  induction rows with
  | nil => simp
  | cons x xs ih =>
    have hxs : ∀ y ∈ xs, key y ∈ keys := fun y hy => hcov y (List.mem_cons_of_mem x hy)
    have step :
        (keys.map (fun k => (((x :: xs).filter (fun y => key y == k)).map val).sum))
          = keys.map (fun k =>
              (if key x = k then val x else 0)
                + ((xs.filter (fun y => key y == k)).map val).sum) := by
      refine List.map_congr_left (fun k _ => ?_)
      by_cases h : key x = k
      · simp [List.filter_cons, h]
      · simp [List.filter_cons, h]
    rw [step, sum_map_add,
      sum_map_ite_of_mem hnd (hcov x (List.mem_cons_self x xs)) (val x), ih hxs]
    simp

/-- The values of a `breakdownBy` mapping sum to the total of the rows. -/
lemma breakdownBy_values_sum {α : Type} (key : α → String) (val : α → ℚ) (rows : List α) :
    ((breakdownBy key val rows).map Prod.snd).sum = (rows.map val).sum := by
  unfold breakdownBy
  rw [List.map_map]
  have hperm := List.perm_insertionSort (fun a b => strLe a b = true) (rows.map key).dedup
  refine sum_fiber_sums key val _ (hperm.nodup_iff.mpr (List.nodup_dedup _)) rows ?_
  intro x hx
  exact hperm.mem_iff.mpr (List.mem_dedup.mpr (List.mem_map_of_mem key hx))

lemma sum_amounts_const {c : ℚ} {l : List Txn} (h : ∀ t ∈ l, t.amount = c) :
    sumAmounts l = c * l.length := by
  unfold sumAmounts
  induction l with
  | nil => simp
  | cons t ts ih =>
    simp only [List.map_cons, List.sum_cons, List.length_cons,
      ih (fun u hu => h u (List.mem_cons_of_mem t hu)), h t (List.mem_cons_self t ts)]
    push_cast
    ring

lemma meanAmount_const {c : ℚ} {l : List Txn} (hne : l ≠ []) (h : ∀ t ∈ l, t.amount = c) :
    meanAmount l = c := by
  unfold meanAmount
  rw [sum_amounts_const h]
  have hlen : l.length ≠ 0 := by simpa [List.length_eq_zero] using hne
  have : (l.length : ℚ) ≠ 0 := Nat.cast_ne_zero.mpr hlen
  field_simp

lemma sampleVar_const {c : ℚ} {l : List Txn} (hne : l ≠ []) (h : ∀ t ∈ l, t.amount = c) :
    sampleVarAmount l = 0 := by
  unfold sampleVarAmount
  rw [List.sum_eq_zero, zero_div]
  intro q hq
  rcases List.mem_map.mp hq with ⟨t, ht, rfl⟩
  rw [h t ht, meanAmount_const hne h]
  ring

/-! ## Claim theorems -/

/-- Claim C10: for every non-empty transaction list whose total income is 0,
`calculate_financial_health_score` short-circuits to score 0 with an empty
breakdown mapping and an empty recommendation list (the theorem holds
without the non-emptiness hypothesis: the empty list returns the same
value). -/
theorem zero_income_short_circuit (ts : List Txn)
    (h : sumAmounts (incomes ts) = 0) :
    calculate_financial_health_score ts
      = { score := 0, breakdown := [], recommendations := [] } := by
  unfold calculate_financial_health_score
  by_cases he : ts.isEmpty
  · rw [if_pos he]
  · rw [if_neg he, if_pos h]

/-- Witness for C10: a non-empty list with an expense but no income
short-circuits to the zero result. -/
theorem zero_income_short_circuit_witness :
    calculate_financial_health_score
        [⟨"e1", ⟨2024, 1, 2⟩, 50, "Expense", "Food", "food", [], "completed", "", ""⟩]
      = { score := 0, breakdown := [], recommendations := [] } :=
  zero_income_short_circuit _ (by decide)

/-- The trend label of the source is `increasing` iff the change exceeds
5, `decreasing` iff it is below -5, and `stable` otherwise. -/
lemma trend_classify (c : ℚ) :
    ((if c > 5 then "increasing" else if c < -5 then "decreasing" else "stable") = "increasing"
        ↔ 5 < c)
    ∧ ((if c > 5 then "increasing" else if c < -5 then "decreasing" else "stable") = "decreasing"
        ↔ c < -5)
    ∧ ((if c > 5 then "increasing" else if c < -5 then "decreasing" else "stable") = "stable"
        ↔ -5 ≤ c ∧ c ≤ 5) := by
  by_cases h5 : c > 5
  · rw [if_pos h5]
    refine ⟨⟨fun _ => h5, fun _ => rfl⟩, ⟨fun h => absurd h (by decide), fun h => by linarith⟩,
      ⟨fun h => absurd h (by decide), fun h => by linarith [h.2]⟩⟩
  · rw [if_neg h5]
    by_cases hm : c < -5
    · rw [if_pos hm]
      refine ⟨⟨fun h => absurd h (by decide), fun h => by linarith⟩, ⟨fun _ => hm, fun _ => rfl⟩,
        ⟨fun h => absurd h (by decide), fun h => by linarith [h.1]⟩⟩
    · rw [if_neg hm]
      push_neg at h5 hm
      refine ⟨⟨fun h => absurd h (by decide), fun h => by linarith⟩,
        ⟨fun h => absurd h (by decide), fun h => by linarith⟩,
        ⟨fun _ => ⟨hm, h5⟩, fun _ => rfl⟩⟩

/-- Claim C5: `calculate_monthly_trend` buckets the expense subset by
month; with at least 2 buckets the change is
`(current - previous) / previous * 100` (0 when the previous bucket is 0)
and the trend is `increasing` iff the change exceeds 5, `decreasing` iff
it is below -5, and `stable` otherwise; with fewer than 2 buckets it is
`stable` with change 0. -/
theorem monthly_trend_correct (monthly : List ℚ) (ts : List Txn) :
    calculate_monthly_trend ts = trendOfMonthly (monthlySums (expenses ts))
    ∧ (2 ≤ monthly.length →
        ((trendOfMonthly monthly).change_percent =
            (if monthly.getD (monthly.length - 2) 0 ≠ 0 then
              (monthly.getD (monthly.length - 1) 0 - monthly.getD (monthly.length - 2) 0)
                / monthly.getD (monthly.length - 2) 0 * 100
            else 0)
          ∧ ((trendOfMonthly monthly).trend = "increasing"
              ↔ 5 < (trendOfMonthly monthly).change_percent)
          ∧ ((trendOfMonthly monthly).trend = "decreasing"
              ↔ (trendOfMonthly monthly).change_percent < -5)
          ∧ ((trendOfMonthly monthly).trend = "stable"
              ↔ -5 ≤ (trendOfMonthly monthly).change_percent
                ∧ (trendOfMonthly monthly).change_percent ≤ 5)))
    ∧ (monthly.length < 2 →
        (trendOfMonthly monthly).trend = "stable"
          ∧ (trendOfMonthly monthly).change_percent = 0) := by
  refine ⟨rfl, ?_, ?_⟩
  · intro h2
    have hlt : ¬monthly.length < 2 := not_lt.mpr h2
    have heq : trendOfMonthly monthly =
        { trend :=
            if (if monthly.getD (monthly.length - 2) 0 ≠ 0 then
                  (monthly.getD (monthly.length - 1) 0 - monthly.getD (monthly.length - 2) 0)
                    / monthly.getD (monthly.length - 2) 0 * 100
                else 0) > 5 then "increasing"
            else if (if monthly.getD (monthly.length - 2) 0 ≠ 0 then
                  (monthly.getD (monthly.length - 1) 0 - monthly.getD (monthly.length - 2) 0)
                    / monthly.getD (monthly.length - 2) 0 * 100
                else 0) < -5 then "decreasing"
            else "stable"
          change_percent :=
            if monthly.getD (monthly.length - 2) 0 ≠ 0 then
              (monthly.getD (monthly.length - 1) 0 - monthly.getD (monthly.length - 2) 0)
                / monthly.getD (monthly.length - 2) 0 * 100
            else 0
          current_month := monthly.getD (monthly.length - 1) 0
          average_monthly := monthly.sum / monthly.length } := by
      unfold trendOfMonthly
      rw [if_neg hlt]
    rw [heq]
    exact ⟨rfl, (trend_classify _).1, (trend_classify _).2.1, (trend_classify _).2.2⟩
  · intro h
    unfold trendOfMonthly
    rw [if_pos h]
    exact ⟨rfl, rfl⟩

/-- Witness for C5: on the concrete series 100, 110 the change is 10% and
the trend is `increasing`; a single-bucket series is `stable` with
change 0. -/
theorem monthly_trend_correct_witness :
    (trendOfMonthly [(100 : ℚ), 110]).trend = "increasing"
      ∧ (trendOfMonthly [(100 : ℚ)]).trend = "stable" :=
  ⟨((monthly_trend_correct [(100 : ℚ), 110] []).2.1 (by decide)).2.1.mpr
      (by norm_num [trendOfMonthly]),
   ((monthly_trend_correct [(100 : ℚ)] []).2.2 (by decide)).1⟩

lemma update_transaction_fst (ts : List Txn) (tid : String) (u : TxnUpdates) (now : String) :
    (update_transaction ts tid u now).1 = true ↔ ∃ t ∈ ts, t.id = tid := by
  induction ts with
  | nil => simp [update_transaction]
  | cons t rest ih =>
    by_cases h : t.id = tid
    · simp [update_transaction, h]
    · simp [update_transaction, h, ih]

lemma update_transaction_snd (ts : List Txn) (tid : String) (u : TxnUpdates) (now : String)
    (h : ∀ t ∈ ts, t.id ≠ tid) : (update_transaction ts tid u now).2 = ts := by
  induction ts with
  | nil => simp [update_transaction]
  | cons t rest ih =>
    have ht := h t (List.mem_cons_self t rest)
    simp [update_transaction, ht, ih (fun x hx => h x (List.mem_cons_of_mem t hx))]

lemma delete_transaction_fst (ts : List Txn) (tid : String) :
    (delete_transaction ts tid).1 = true ↔ ∃ t ∈ ts, t.id = tid := by
  simp only [delete_transaction, decide_eq_true_eq]
  rw [List.length_filter_lt_length_iff_exists]
  simp

lemma delete_transaction_snd (ts : List Txn) (tid : String)
    (h : ∀ t ∈ ts, t.id ≠ tid) : (delete_transaction ts tid).2 = ts := by
  simp only [delete_transaction]
  exact List.filter_eq_self.mpr (fun t ht => by simpa using h t ht)

/-- Claim C9: `update_transaction` and `delete_transaction` report `true`
exactly when a transaction with the given id exists, and on a missing id
both report `false` and leave the collection unchanged. -/
theorem update_delete_missing_id (ts : List Txn) (tid : String) (u : TxnUpdates) (now : String) :
    ((update_transaction ts tid u now).1 = true ↔ ∃ t ∈ ts, t.id = tid)
    ∧ ((delete_transaction ts tid).1 = true ↔ ∃ t ∈ ts, t.id = tid)
    ∧ ((∀ t ∈ ts, t.id ≠ tid) →
        (update_transaction ts tid u now).2 = ts ∧ (delete_transaction ts tid).2 = ts) :=
  ⟨update_transaction_fst ts tid u now, delete_transaction_fst ts tid,
   fun h => ⟨update_transaction_snd ts tid u now h, delete_transaction_snd ts tid h⟩⟩

/-- Witness for C9: updating or deleting a missing id on a concrete
one-element store returns the store unchanged. -/
theorem update_delete_missing_id_witness :
    (update_transaction
        [⟨"t1", ⟨2024, 1, 1⟩, 10, "Income", "Salary", "pay", [], "completed", "", ""⟩]
        "absent" {} "2024-02-02").2
      = [⟨"t1", ⟨2024, 1, 1⟩, 10, "Income", "Salary", "pay", [], "completed", "", ""⟩]
    ∧ (delete_transaction
        [⟨"t1", ⟨2024, 1, 1⟩, 10, "Income", "Salary", "pay", [], "completed", "", ""⟩]
        "absent").2
      = [⟨"t1", ⟨2024, 1, 1⟩, 10, "Income", "Salary", "pay", [], "completed", "", ""⟩] :=
  (update_delete_missing_id
      [⟨"t1", ⟨2024, 1, 1⟩, 10, "Income", "Salary", "pay", [], "completed", "", ""⟩]
      "absent" {} "2024-02-02").2.2
    (by decide)

lemma savings_score_of_le (x : ℚ) : savings_score_of x ≤ 100 :=
  min_le_right _ _

lemma stability_score_of_bounds (ts : List Txn) :
    0 ≤ stability_score_of ts ∧ stability_score_of ts ≤ 100 := by
  unfold stability_score_of
  split <;> norm_num

lemma calculate_diversity_score_bounds (ts : List Txn) :
    0 ≤ calculate_diversity_score ts ∧ calculate_diversity_score ts ≤ 100 := by
  unfold calculate_diversity_score
  exact ⟨le_min (by positivity) (by norm_num), min_le_right _ _⟩

lemma calculate_growth_score_bounds (ts : List Txn) :
    0 ≤ calculate_growth_score ts ∧ calculate_growth_score ts ≤ 100 := by
  unfold calculate_growth_score
  split
  · norm_num
  · exact ⟨le_min (le_max_right _ _) (by norm_num), min_le_right _ _⟩

/-- Claim C1 (amended): for every non-empty transaction list with nonzero
total income, the health score equals the weighted sum
`0.4*savings + 0.3*stability + 0.2*diversity + 0.1*growth`; the
stability, diversity and growth sub-scores lie in [0,100] and the savings
sub-score is at most 100, so the overall score is at most 100 — but the
savings sub-score (hence the overall score) has no lower bound: with
expenses above income the savings rate is negative and
`min(savings_rate*2, 100)` is negative. -/
theorem health_score_weighted_sum (ts : List Txn) (hne : ts ≠ [])
    (hinc : sumAmounts (incomes ts) ≠ 0) :
    (calculate_financial_health_score ts).score
        = savings_score_of ((sumAmounts (incomes ts) - sumAmounts (expenses ts))
              / sumAmounts (incomes ts) * 100) * (4/10)
          + stability_score_of ts * (3/10)
          + calculate_diversity_score ts * (2/10)
          + calculate_growth_score ts * (1/10)
    ∧ (calculate_financial_health_score ts).score ≤ 100
    ∧ savings_score_of ((sumAmounts (incomes ts) - sumAmounts (expenses ts))
          / sumAmounts (incomes ts) * 100) ≤ 100
    ∧ (0 ≤ stability_score_of ts ∧ stability_score_of ts ≤ 100)
    ∧ (0 ≤ calculate_diversity_score ts ∧ calculate_diversity_score ts ≤ 100)
    ∧ (0 ≤ calculate_growth_score ts ∧ calculate_growth_score ts ≤ 100) := by
  have he : ¬ts.isEmpty = true := fun h => hne (List.isEmpty_iff.mp h)
  have heq : (calculate_financial_health_score ts).score
      = savings_score_of ((sumAmounts (incomes ts) - sumAmounts (expenses ts))
            / sumAmounts (incomes ts) * 100) * (4/10)
        + stability_score_of ts * (3/10)
        + calculate_diversity_score ts * (2/10)
        + calculate_growth_score ts * (1/10) := by
    unfold calculate_financial_health_score
    rw [if_neg he, if_neg hinc]
  have hsav := savings_score_of_le
    ((sumAmounts (incomes ts) - sumAmounts (expenses ts)) / sumAmounts (incomes ts) * 100)
  have hst := stability_score_of_bounds ts
  have hdiv := calculate_diversity_score_bounds ts
  have hgr := calculate_growth_score_bounds ts
  refine ⟨heq, ?_, hsav, hst, hdiv, hgr⟩
  rw [heq]
  linarith [hst.2, hdiv.2, hgr.2]

/-- Witness for C1 (amended): on a concrete one-income one-expense list
the score is bounded by 100. -/
theorem health_score_weighted_sum_witness :
    (calculate_financial_health_score
        [⟨"i1", ⟨2024, 1, 1⟩, 100, "Income", "Salary", "pay", [], "completed", "", ""⟩,
         ⟨"e1", ⟨2024, 1, 2⟩, 50, "Expense", "Food", "food", [], "completed", "", ""⟩]).score
      ≤ 100 :=
  (health_score_weighted_sum
      [⟨"i1", ⟨2024, 1, 1⟩, 100, "Income", "Salary", "pay", [], "completed", "", ""⟩,
       ⟨"e1", ⟨2024, 1, 2⟩, 50, "Expense", "Food", "food", [], "completed", "", ""⟩]
      (by decide) (by simp +decide [sumAmounts, incomes])).2.1

/-- Claim C1 counterexample: with income 100 and expenses 200 in one month
the savings rate is -100, the savings sub-score is `min(-200, 100) = -200`,
and the overall score is `0.4*(-200) + 0.3*40 + 0.2*20 + 0.1*50 = -59`,
which is negative — the health score is not within [0,100]. -/
theorem health_score_below_zero :
    (calculate_financial_health_score
        [⟨"i1", ⟨2024, 1, 1⟩, 100, "Income", "Salary", "pay", [], "completed", "", ""⟩,
         ⟨"e1", ⟨2024, 1, 2⟩, 200, "Expense", "Food", "food", [], "completed", "", ""⟩]).score
      < 0 := by
  simp +decide [calculate_financial_health_score, sumAmounts, incomes, expenses,
    savings_score_of, stability_score_of, calculate_diversity_score, calculate_growth_score,
    monthlySums, sortedPeriods, inPeriod, Date.period]
  norm_num

/-- Claim C3: with fewer than 2 monthly buckets the linear-regression
`predict_future_balance` returns the explicitly empty result (`none`,
the source's `{}`), and with fewer than 3 expense data points the
moving-average `forecast_spending` returns `[]`; neither fabricates a
numeric prediction. -/
theorem insufficient_data_empty_forecast (fts : List FCTxn) (ts : List Txn) :
    (((fts.map (fun t => t.date.period)).dedup).length < 2 → predict_future_balance fts = none)
    ∧ ((expenses ts).length < 3 → forecast_spending ts = []) := by
  constructor
  · intro h
    unfold predict_future_balance
    by_cases hg : fts.isEmpty || fts.length < 3
    · rw [if_pos hg]
    · have hlen : (fcMonthlyBalances fts).length < 2 := by
        unfold fcMonthlyBalances fcSortedPeriods
        rw [List.length_map, List.length_insertionSort]
        exact h
      rw [if_neg hg, if_pos hlen]
  · intro h
    unfold forecast_spending
    rw [if_pos h]

/-- Witness for C3: three transactions in a single month give one bucket
and `predict_future_balance` yields `none`; two expense rows are below
the 3-point minimum and `forecast_spending` yields `[]`. -/
theorem insufficient_data_empty_forecast_witness :
    predict_future_balance
        [⟨⟨2024, 1, 1⟩, 10, "Income", "Salary", "pay", "f1"⟩,
         ⟨⟨2024, 1, 5⟩, 3, "Expense", "Food", "food", "f2"⟩,
         ⟨⟨2024, 1, 9⟩, 4, "Expense", "Food", "food", "f3"⟩] = none
    ∧ forecast_spending
        [⟨"t1", ⟨2024, 1, 5⟩, 3, "Expense", "Food", "food", [], "completed", "", ""⟩,
         ⟨"t2", ⟨2024, 2, 5⟩, 4, "Expense", "Food", "food", [], "completed", "", ""⟩] = [] :=
  ⟨(insufficient_data_empty_forecast
      [⟨⟨2024, 1, 1⟩, 10, "Income", "Salary", "pay", "f1"⟩,
       ⟨⟨2024, 1, 5⟩, 3, "Expense", "Food", "food", "f2"⟩,
       ⟨⟨2024, 1, 9⟩, 4, "Expense", "Food", "food", "f3"⟩] []).1 (by decide),
   (insufficient_data_empty_forecast []
      [⟨"t1", ⟨2024, 1, 5⟩, 3, "Expense", "Food", "food", [], "completed", "", ""⟩,
       ⟨"t2", ⟨2024, 2, 5⟩, 4, "Expense", "Food", "food", [], "completed", "", ""⟩]).2 (by decide)⟩

/-- Claim C8 counterexample: the finance_core id synthesis interpolates
Python's salted `hash(description)`, so two runs of the program — two
different hash seeds — produce different ids for identical date, amount
and description. -/
theorem id_differs_across_seeds :
    fcPostInitId 0 ⟨2024, 1, 1⟩ 100 "Monthly Salary" none
      ≠ fcPostInitId 1 ⟨2024, 1, 1⟩ 100 "Monthly Salary" none := by
  decide

/-- Claim C8 (amended): the synthesized identifier is a deterministic
function of date, amount, description — and, for the finance_core
constructor, of the per-process hash seed: with the seed fixed the
finance_core id does not depend on category or subcategory, and the data
manager's md5-based id depends on none of the other record fields, the
prior stored list, or the wall clock, so any two runs agreeing on
date, amount and description produce the same id there. -/
theorem id_deterministic_given_seed (seed : Nat) (d : Date) (a : ℚ)
    (desc c1 s1 c2 s2 cat1 ty1 cat2 ty2 : String) (tags1 tags2 : List String)
    (st1 st2 ca1 ca2 ua1 ua2 : Option String)
    (ts1 ts2 : List Txn) (now1 now2 : String) :
    (fc_mk_transaction seed d a c1 s1 desc none).id
        = (fc_mk_transaction seed d a c2 s2 desc none).id
    ∧ (qdm_add_transaction ts1 ⟨none, d, a, cat1, ty1, desc, tags1, st1, ca1, ua1⟩ now1).1
        = (qdm_add_transaction ts2 ⟨none, d, a, cat2, ty2, desc, tags2, st2, ca2, ua2⟩ now2).1 :=
  ⟨rfl, rfl⟩

/-- Claim C4 counterexample: pandas `Series.std()` is the *sample*
standard deviation (`ddof=1`), not the population one the claim states.
On expense amounts 5, 5, 5, 5, 6, 8 (mean 17/3) the amount 8 has
population z-score `(8 - 17/3)/√(11/9) ≈ 2.11 > 2`, so the claimed
population rule flags it, while its sample z-score is
`(8 - 17/3)/√(22/15) ≈ 1.93 ≤ 2`, so the code does not flag it: the code's
flag set differs from the claimed one. -/
theorem anomalies_differ_from_population_rule :
    detect_anomalies
        [⟨"x1", ⟨2024, 1, 1⟩, 5, "Expense", "Food", "d1", [], "completed", "", ""⟩,
         ⟨"x2", ⟨2024, 1, 2⟩, 5, "Expense", "Food", "d2", [], "completed", "", ""⟩,
         ⟨"x3", ⟨2024, 1, 3⟩, 5, "Expense", "Food", "d3", [], "completed", "", ""⟩,
         ⟨"x4", ⟨2024, 1, 4⟩, 5, "Expense", "Food", "d4", [], "completed", "", ""⟩,
         ⟨"x5", ⟨2024, 1, 5⟩, 6, "Expense", "Food", "d5", [], "completed", "", ""⟩,
         ⟨"x6", ⟨2024, 1, 6⟩, 8, "Expense", "Food", "d6", [], "completed", "", ""⟩] = []
    ∧ detect_anomalies_specPopulation
        [⟨"x1", ⟨2024, 1, 1⟩, 5, "Expense", "Food", "d1", [], "completed", "", ""⟩,
         ⟨"x2", ⟨2024, 1, 2⟩, 5, "Expense", "Food", "d2", [], "completed", "", ""⟩,
         ⟨"x3", ⟨2024, 1, 3⟩, 5, "Expense", "Food", "d3", [], "completed", "", ""⟩,
         ⟨"x4", ⟨2024, 1, 4⟩, 5, "Expense", "Food", "d4", [], "completed", "", ""⟩,
         ⟨"x5", ⟨2024, 1, 5⟩, 6, "Expense", "Food", "d5", [], "completed", "", ""⟩,
         ⟨"x6", ⟨2024, 1, 6⟩, 8, "Expense", "Food", "d6", [], "completed", "", ""⟩]
      = [⟨⟨"x6", ⟨2024, 1, 6⟩, 8, "Expense", "Food", "d6", [], "completed", "", ""⟩,
          "high_spending"⟩] := by
  constructor
  · simp +decide [detect_anomalies, expenses, sampleVarAmount, meanAmount, sumAmounts]
    norm_num
  · simp +decide [detect_anomalies_specPopulation, expenses, popVarAmount, meanAmount, sumAmounts]
    norm_num

/-- Claim C4 (amended): `detect_anomalies` flags exactly those Expense
transactions whose squared deviation from the mean exceeds `4×` the
*sample* variance (pandas `std`, `ddof=1`) — equivalently whose absolute
sample z-score exceeds 2 — tagging each `high_spending` or `low_spending`
relative to the mean; when that variance is 0, in particular on any
constant-amount expense series, no anomalies are reported. -/
theorem detect_anomalies_sample_rule :
    (∀ ts a, a ∈ detect_anomalies ts ↔
        (a.txn ∈ expenses ts ∧ sampleVarAmount (expenses ts) ≠ 0
          ∧ (a.txn.amount - meanAmount (expenses ts)) ^ 2 > 4 * sampleVarAmount (expenses ts)
          ∧ a.tag = (if a.txn.amount > meanAmount (expenses ts) then "high_spending"
              else "low_spending")))
    ∧ (∀ ts c, (∀ t ∈ expenses ts, t.amount = c) → detect_anomalies ts = []) := by
  constructor
  · intro ts a
    unfold detect_anomalies
    by_cases he : (expenses ts).isEmpty
    · rw [if_pos he]
      have : expenses ts = [] := List.isEmpty_iff.mp he
      simp [this]
    · rw [if_neg he]
      by_cases hv : sampleVarAmount (expenses ts) = 0
      · rw [if_pos hv]
        simp [hv]
      · rw [if_neg hv]
        obtain ⟨atxn, atag⟩ := a
        simp only [List.mem_map, List.mem_filter, decide_eq_true_eq, Anomaly.mk.injEq]
        constructor
        · rintro ⟨x, ⟨hx, hcond⟩, rfl, rfl⟩
          exact ⟨hx, hv, hcond, rfl⟩
        · rintro ⟨hmem, -, hcond, htag⟩
          exact ⟨atxn, ⟨hmem, hcond⟩, rfl, htag.symm⟩
  · intro ts c hconst
    unfold detect_anomalies
    by_cases he : (expenses ts).isEmpty
    · rw [if_pos he]
    · have hne : expenses ts ≠ [] := fun h => he (by simp [h])
      rw [if_neg he, if_pos (sampleVar_const hne hconst)]

/-- Witness for C4 (amended): a two-element constant expense series
yields no anomalies, and concretely no pair is a member of its output. -/
theorem detect_anomalies_sample_rule_witness :
    detect_anomalies
        [⟨"c1", ⟨2024, 1, 1⟩, 50, "Expense", "Food", "d1", [], "completed", "", ""⟩,
         ⟨"c2", ⟨2024, 1, 2⟩, 50, "Expense", "Food", "d2", [], "completed", "", ""⟩] = [] :=
  detect_anomalies_sample_rule.2
    [⟨"c1", ⟨2024, 1, 1⟩, 50, "Expense", "Food", "d1", [], "completed", "", ""⟩,
     ⟨"c2", ⟨2024, 1, 2⟩, 50, "Expense", "Food", "d2", [], "completed", "", ""⟩]
    50 (by decide)

lemma qdm_savings_rate_zero_denominator (ts : List Txn) (pv : ℚ) (now : Date)
    (h : sumAmounts (incomes (inPeriod ts now.period)) = 0) :
    (qdm_get_financial_summary ts pv now).savings_rate = 0 := by
  unfold qdm_get_financial_summary
  by_cases he : ts.isEmpty
  · rw [if_pos he]
    rfl
  · rw [if_neg he]
    simp [h]

lemma fc_summary_ok_zero_income (ts : List FCTxn) (now : Date) (s : FCSummary)
    (hok : fc_get_financial_summary ts now = .ok s)
    (h : fcSumAmounts (fcIncomes ts) = 0) :
    s.savings_rate = 0 ∧ s.expense_ratio = 0 := by
  unfold fc_get_financial_summary at hok
  by_cases he : ts.isEmpty
  · rw [if_pos he] at hok
    cases hok
    exact ⟨rfl, rfl⟩
  · rw [if_neg he] at hok
    split at hok
    · cases hok
    · cases hok
      constructor <;> simp [h]

/-- Claim C2 (code bug): the intended zero-denominator policy is present —
the data manager's savings rate is 0 whenever the current month's income
is 0, and any `FinanceManager` summary that is actually returned has
`savings_rate = 0` and `expense_ratio = 0` whenever total income is 0 —
but `FinanceManager.get_financial_summary` raises a `TypeError` whenever
the data contains an Expense transaction, because its `monthly_data`
aggregation (lines 77-80) hands the string-valued `Category` column to
the expense lambda and line 104 then takes `.mean()` of strings; so on an
income-0 list with an expense the summary is an error, not a zero
ratio. -/
theorem zero_income_ratio_policy :
    (∀ ts pv now, sumAmounts (incomes (inPeriod ts now.period)) = 0 →
        (qdm_get_financial_summary ts pv now).savings_rate = 0)
    ∧ (∀ ts now s, fc_get_financial_summary ts now = .ok s →
        fcSumAmounts (fcIncomes ts) = 0 → s.savings_rate = 0 ∧ s.expense_ratio = 0)
    ∧ fc_get_financial_summary [⟨⟨2024, 1, 16⟩, 100, "Expense", "Food", "grocery", "t1"⟩]
        ⟨2024, 1, 31⟩ = .error "TypeError: Could not convert string to numeric" :=
  ⟨qdm_savings_rate_zero_denominator,
   fc_summary_ok_zero_income,
   by simp +decide [fc_get_financial_summary, fcMonthlyExpenseCol, fcExpenseCell,
        fcSortedPeriods, fcInPeriod, fcExpenses, Date.period, pdMean]⟩

/-- Witness for C2: a store holding a single expense has zero income in
the current month and the data manager reports `savings_rate = 0`. -/
theorem zero_income_ratio_policy_witness :
    (qdm_get_financial_summary
        [⟨"t1", ⟨2024, 1, 16⟩, 100, "Expense", "Food", "grocery", [], "completed", "", ""⟩]
        0 ⟨2024, 1, 31⟩).savings_rate = 0 :=
  zero_income_ratio_policy.1
    [⟨"t1", ⟨2024, 1, 16⟩, 100, "Expense", "Food", "grocery", [], "completed", "", ""⟩]
    0 ⟨2024, 1, 31⟩ (by simp +decide [sumAmounts, incomes, inPeriod, Date.period])

lemma qdm_breakdown_sums (ts : List Txn) (pv : ℚ) (now : Date) :
    (((qdm_get_financial_summary ts pv now).expense_breakdown).map Prod.snd).sum
        = (qdm_get_financial_summary ts pv now).total_expenses
    ∧ (((qdm_get_financial_summary ts pv now).income_breakdown).map Prod.snd).sum
        = (qdm_get_financial_summary ts pv now).total_income := by
  unfold qdm_get_financial_summary
  by_cases he : ts.isEmpty
  · rw [if_pos he]
    exact ⟨rfl, rfl⟩
  · rw [if_neg he]
    exact ⟨breakdownBy_values_sum (fun t : Txn => t.ttype) (fun t => t.amount) (expenses ts),
      breakdownBy_values_sum (fun t : Txn => t.ttype) (fun t => t.amount) (incomes ts)⟩

lemma fc_summary_ok_breakdown (ts : List FCTxn) (now : Date) (s : FCSummary)
    (hok : fc_get_financial_summary ts now = .ok s) :
    (s.expense_breakdown.map Prod.snd).sum = s.total_expenses
    ∧ (s.income_breakdown.map Prod.snd).sum = s.total_income := by
  unfold fc_get_financial_summary at hok
  by_cases he : ts.isEmpty
  · rw [if_pos he] at hok
    cases hok
    exact ⟨rfl, rfl⟩
  · rw [if_neg he] at hok
    split at hok
    · cases hok
    · cases hok
      exact ⟨breakdownBy_values_sum (fun t : FCTxn => t.subcategory) (fun t => t.amount)
          (fcExpenses ts),
        breakdownBy_values_sum (fun t : FCTxn => t.subcategory) (fun t => t.amount)
          (fcIncomes ts)⟩

/-- Claim C6 (code bug): the breakdown values do sum to the category
totals — unconditionally for the data manager's summary, and for every
`FinanceManager` summary that is actually returned — but
`FinanceManager.get_financial_summary` raises a `TypeError` on any data
containing an Expense transaction (the mis-aggregated string `Expense`
column of lines 77-80 is fed to `.mean()` on line 104), so for such lists
no summary with breakdowns is produced at all. -/
theorem breakdown_values_sum_to_totals :
    (∀ ts pv now,
        (((qdm_get_financial_summary ts pv now).expense_breakdown).map Prod.snd).sum
            = (qdm_get_financial_summary ts pv now).total_expenses
        ∧ (((qdm_get_financial_summary ts pv now).income_breakdown).map Prod.snd).sum
            = (qdm_get_financial_summary ts pv now).total_income)
    ∧ (∀ ts now s, fc_get_financial_summary ts now = .ok s →
        (s.expense_breakdown.map Prod.snd).sum = s.total_expenses
        ∧ (s.income_breakdown.map Prod.snd).sum = s.total_income)
    ∧ fc_get_financial_summary [⟨⟨2024, 2, 10⟩, 40, "Expense", "Transport", "bus", "t2"⟩]
        ⟨2024, 2, 28⟩ = .error "TypeError: Could not convert string to numeric" :=
  ⟨qdm_breakdown_sums,
   fc_summary_ok_breakdown,
   by simp +decide [fc_get_financial_summary, fcMonthlyExpenseCol, fcExpenseCell,
        fcSortedPeriods, fcInPeriod, fcExpenses, Date.period, pdMean]⟩

/-- Witness for C6: the hypothesis-bearing conjunct applied to a concrete
income-only store whose summary is returned: its income breakdown sums to
its total income. -/
theorem breakdown_values_sum_to_totals_witness :
    ((qdm_get_financial_summary
        [⟨"t1", ⟨2024, 1, 5⟩, 75, "Income", "Salary", "pay", [], "completed", "", ""⟩]
        0 ⟨2024, 1, 31⟩).income_breakdown.map Prod.snd).sum
      = (qdm_get_financial_summary
        [⟨"t1", ⟨2024, 1, 5⟩, 75, "Income", "Salary", "pay", [], "completed", "", ""⟩]
        0 ⟨2024, 1, 31⟩).total_income :=
  (breakdown_values_sum_to_totals.1
    [⟨"t1", ⟨2024, 1, 5⟩, 75, "Income", "Salary", "pay", [], "completed", "", ""⟩]
    0 ⟨2024, 1, 31⟩).2

/-- Claim C7 (code bug): `FinanceManager.add_transaction` (whose docstring
promises "validation") and `QuantumDataManager.add_transaction` append
arbitrary records without checking the amount, so a record with
`amount = -5` enters the stored collection and the `amount > 0` invariant
fails; positivity is enforced only by the interactive
`DataValidator.get_amount`, which accepts a value iff it is positive. -/
theorem add_transaction_skips_validation :
    fc_add_transaction [] ⟨⟨2024, 3, 1⟩, -5, "Expense", "Food", "refund", "x1"⟩
        = [⟨⟨2024, 3, 1⟩, -5, "Expense", "Food", "refund", "x1"⟩]
    ∧ (∃ t ∈ fc_add_transaction [] ⟨⟨2024, 3, 1⟩, -5, "Expense", "Food", "refund", "x1"⟩,
        ¬0 < t.amount)
    ∧ (∃ t ∈ (qdm_add_transaction []
          ⟨some "q1", ⟨2024, 3, 1⟩, -5, "Expense", "Food", "refund", [], none, none, none⟩
          "2024-03-01T00:00:00").2, ¬0 < t.amount)
    ∧ (∀ x : ℚ, (get_amount_step x).isSome ↔ 0 < x) := by
  refine ⟨rfl, ⟨⟨⟨2024, 3, 1⟩, -5, "Expense", "Food", "refund", "x1"⟩, by
      simp [fc_add_transaction], by norm_num⟩, ⟨⟨"q1", ⟨2024, 3, 1⟩, -5, "Expense", "Food",
        "refund", [], "completed", "2024-03-01T00:00:00", "2024-03-01T00:00:00"⟩, by
      simp [qdm_add_transaction], by norm_num⟩, ?_⟩
  intro x
  unfold get_amount_step
  by_cases hx : x ≤ 0
  · rw [if_pos hx]
    simpa using not_lt.mpr hx
  · rw [if_neg hx]
    simpa using not_le.mp hx

/-- Witness for C7: the validator accepts the concrete positive amount 10. -/
theorem add_transaction_skips_validation_witness : (get_amount_step 10).isSome :=
  (add_transaction_skips_validation.2.2.2 10).mpr (by norm_num)

/-- Witness for C8 (amended): concrete records differing only in category
and subcategory get the same synthesized id under the same seed. -/
theorem id_deterministic_given_seed_witness :
    (fc_mk_transaction 7 ⟨2024, 1, 1⟩ 100 "Income" "Salary" "pay" none).id
      = (fc_mk_transaction 7 ⟨2024, 1, 1⟩ 100 "Expense" "Food" "pay" none).id :=
  (id_deterministic_given_seed 7 ⟨2024, 1, 1⟩ 100 "pay" "Income" "Salary" "Expense" "Food"
    "c1" "t1" "c2" "t2" [] [] none none none none none none [] [] "n1" "n2").1

end FinanceTracker
